import Mathlib

/-!
Verification of the remnawave-tg-shop bot handlers.

Shallow embedding of the handler modules under `bot/handlers/user/`:
each handler becomes a pure Lean function from an explicit environment
(settings flags, database rows, collaborator-service results) to an
output record describing the observable effects (service calls made,
commits/rollbacks, alerts shown, screens rendered, rows written).
-/

/- ===== Python string/char primitives used by the handlers ===== -/

/-- Whitespace characters recognised by Python `str.strip` / regex `\s`
(ASCII subset, which is what the handlers feed into these functions). -/
def pyIsSpace (c : Char) : Bool :=
  c = ' ' || c = '\t' || c = '\n' || c = '\r' || c = '\x0b' || c = '\x0c'

/-- Python `str.strip()` with no arguments: drop whitespace on both ends. -/
def pyStrip (s : String) : String :=
  String.mk (((s.toList.dropWhile pyIsSpace).reverse.dropWhile pyIsSpace).reverse)

/-- Python `str.upper()` (ASCII). -/
def pyUpper (s : String) : String := String.mk (s.toList.map Char.toUpper)

/-- Python `str.lower()` (ASCII). -/
def pyLower (s : String) : String := String.mk (s.toList.map Char.toLower)

/-- Word character in the sense of the regex `\b` boundary: `[A-Za-z0-9_]`. -/
def isWordChar (c : Char) : Bool := c.isAlphanum || c = '_'

/-- Does `hay` contain `needle` as a contiguous subsequence (regex literal search)? -/
def containsSeq : List Char → List Char → Bool
  | needle, [] => needle.isEmpty
  | needle, c :: rest => needle.isPrefixOf (c :: rest) || containsSeq needle rest

/-- Python `str.isdigit()` restricted to ASCII: nonempty and all `[0-9]`. -/
def pyIsDigits (s : String) : Bool := !s.isEmpty && s.toList.all Char.isDigit

/-- Python `int(...)` on a digit string. -/
def pyStrToNat (s : String) : Nat :=
  s.toList.foldl (fun acc c => 10 * acc + (c.toNat - '0'.toNat)) 0

/- ===== promo_user.py: the two suspicious-input regexes ===== -/

/-- Alternatives of `SUSPICIOUS_SQL_KEYWORDS_REGEX`, lowered: first literal,
then an optional `\s*`-separated second literal. -/
def sqlKeywordAlts : List (List Char × Option (List Char)) :=
  [ ("drop".toList, some "table".toList),
    ("delete".toList, some "from".toList),
    ("alter".toList, some "table".toList),
    ("truncate".toList, some "table".toList),
    ("union".toList, some "select".toList),
    ([';'], some "select".toList),
    ([';'], some "insert".toList),
    ([';'], some "update".toList),
    ([';'], some "delete".toList),
    ("xp_cmdshell".toList, none),
    ("sysdatabases".toList, none),
    ("sysobjects".toList, none),
    ("information_schema".toList, none) ]

/-- Match a literal at the head of the input, returning the remainder. -/
def matchLit : List Char → List Char → Option (List Char)
  | [], cs => some cs
  | _ :: _, [] => none
  | p :: ps, c :: cs => if p = c then matchLit ps cs else none

/-- Match one keyword alternative (`first` then `\s*` then `second`) at the
head of the input, returning the remainder after the match. -/
def matchAlt (alt : List Char × Option (List Char)) (cs : List Char) :
    Option (List Char) :=
  match matchLit alt.1 cs with
  | none => none
  | some rest =>
    match alt.2 with
    | none => some rest
    | some w2 => matchLit w2 (rest.dropWhile pyIsSpace)

/-- Word-ness of the character before the current position (`none` = string start). -/
def prevIsWord : Option Char → Bool
  | none => false
  | some c => isWordChar c

/-- Does an alternative match at this position, with a `\b` boundary on both
sides?  Every alternative ends in a word character, so the trailing boundary
holds iff the remainder is empty or starts with a non-word character; the
leading boundary compares the word-ness of the previous character with that
of the first matched character. -/
def altMatchesAt (prev : Option Char) (cs : List Char)
    (alt : List Char × Option (List Char)) : Bool :=
  match cs with
  | [] => false
  | c :: _ =>
    (isWordChar c != prevIsWord prev) &&
    (match matchAlt alt cs with
     | none => false
     | some [] => true
     | some (r :: _) => !isWordChar r)

/-- Scan all positions of the (already lowercased) input for a keyword match. -/
def sqlKeywordSearchAux : Option Char → List Char → Bool
  | _, [] => false
  | prev, c :: rest =>
    sqlKeywordAlts.any (altMatchesAt prev (c :: rest)) ||
    sqlKeywordSearchAux (some c) rest

/-- Search of `SUSPICIOUS_SQL_KEYWORDS_REGEX` (case-insensitive via lowering). -/
def sqlKeywordMatches (s : String) : Bool :=
  sqlKeywordSearchAux none (s.toList.map Char.toLower)

/-- The `#\s` alternative of `SUSPICIOUS_CHARS_REGEX`: a `#` immediately
followed by a whitespace character. -/
def hashThenSpace : List Char → Bool
  | [] => false
  | '#' :: c :: rest => pyIsSpace c || hashThenSpace (c :: rest)
  | _ :: rest => hashThenSpace rest

/-- Search of `SUSPICIOUS_CHARS_REGEX`: any of `--`, `#\s`, `;`, `*/`, `/*`. -/
def suspiciousChars (s : String) : Bool :=
  let cs := s.toList
  containsSeq "--".toList cs || hashThenSpace cs || cs.contains ';' ||
  containsSeq "*/".toList cs || containsSeq "/*".toList cs

/-- Constant `MAX_PROMO_CODE_INPUT_LENGTH` from promo_user.py. -/
def MAX_PROMO_CODE_INPUT_LENGTH : Nat := 100

/-- The combined `is_suspicious` test of `process_promo_code_input`:
empty input, over-long input, or a hit on either regex. -/
def promoInputSuspicious (code : String) : Bool :=
  decide (code = "") || decide (code.length > MAX_PROMO_CODE_INPUT_LENGTH) ||
  sqlKeywordMatches code || suspiciousChars code

example : sqlKeywordMatches "drop table users" = true := by decide
example : sqlKeywordMatches "xDROP TABLE" = false := by decide
example : sqlKeywordMatches "DroP    TaBlE x" = true := by decide
example : sqlKeywordMatches "droptable" = true := by decide
example : suspiciousChars "; SELECT" = true := by decide
example : sqlKeywordMatches "hello; select 1" = true := by decide
example : sqlKeywordMatches "hello ; select 1" = false := by decide
example : sqlKeywordMatches "; select 1" = false := by decide
example : suspiciousChars "a--b" = true := by decide
example : suspiciousChars "PROMO2024" = false := by decide
example : promoInputSuspicious "PROMO2024" = false := by decide
example : pyStrip "  ab c  " = "ab c" := by decide

/- ===== promo_user.py: process_promo_code_input ===== -/

/-- Formatted timestamp model (the handlers only ever format datetimes). -/
structure PyDateTime where
  year : Nat
  month : Nat
  day : Nat
  hour : Nat
  minute : Nat
  second : Nat
deriving DecidableEq, Repr

/-- Zero-pad to two digits (strftime `%d`, `%m`, `%H`, `%M`, `%S`). -/
def pad2 (n : Nat) : String := if n < 10 then "0" ++ toString n else toString n

/-- Zero-pad to four digits (strftime `%Y`). -/
def pad4 (n : Nat) : String :=
  if n < 10 then "000" ++ toString n
  else if n < 100 then "00" ++ toString n
  else if n < 1000 then "0" ++ toString n
  else toString n

/-- Format `strftime("%d.%m.%Y %H:%M:%S")`, the promo success end-date format. -/
def strftimeFullDateTime (d : PyDateTime) : String :=
  pad2 d.day ++ "." ++ pad2 d.month ++ "." ++ pad4 d.year ++ " " ++
  pad2 d.hour ++ ":" ++ pad2 d.minute ++ ":" ++ pad2 d.second

/-- Format `strftime("%Y-%m-%d")`, the trial detail end-date format. -/
def strftimeDateOnly (d : PyDateTime) : String :=
  pad4 d.year ++ "-" ++ pad2 d.month ++ "-" ++ pad2 d.day

/-- Value in the second slot of `PromoCodeService.apply_promo_code`'s result:
a datetime on success, an already-localized text on failure. -/
inductive PromoServiceVal
  | dt (d : PyDateTime)
  | txt (s : String)
deriving DecidableEq

/-- Environment of one `process_promo_code_input` invocation: injected
dependencies, the raw message text, the settings flag, and the results the
collaborator services would return if called. -/
structure PromoEnv where
  i18nPresent : Bool
  servicePresent : Bool
  messageText : String
  logSuspiciousActivity : Bool
  applyResult : Bool × PromoServiceVal
  activeDetails : Option (Option String)

/-- Reply produced by `process_promo_code_input` (localization keys kept as
tokens; parameters kept as fields). -/
inductive PromoResponse
  | serviceError
  | notFound (echo : String)
  | successFull (endDate : String) (configLink : String)
  | failVal (v : PromoServiceVal)
deriving DecidableEq

/-- Observable effects of one `process_promo_code_input` invocation. -/
structure PromoOut where
  serviceCalled : Bool
  commits : Nat
  rollbacks : Nat
  response : PromoResponse
  stateCleared : Bool
  adminNotified : Bool
deriving DecidableEq

/-- Localization token standing for the "unavailable" connect-link placeholder. -/
def configLinkPlaceholder : String := "config_link_not_available"

/-- Resolution `config_link = active.get("config_link") if active else None;
config_link = config_link or _("config_link_not_available")` — note a present
but empty link is falsy and also falls back to the placeholder. -/
def resolveConfigLink (details : Option (Option String)) : String :=
  match details with
  | some (some l) => if l = "" then configLinkPlaceholder else l
  | _ => configLinkPlaceholder

/-- Shallow embedding of `process_promo_code_input` (promo_user.py):
missing dependencies abort with a generic reply; suspicious input is
answered with the "not found" echo without touching the promo service;
otherwise the service is applied, with commit on success and rollback on
failure; the FSM captured-input state is cleared on every path. -/
def process_promo_code_input (env : PromoEnv) : PromoOut :=
  if !(env.i18nPresent && env.servicePresent) then
    { serviceCalled := false, commits := 0, rollbacks := 0,
      response := .serviceError, stateCleared := true, adminNotified := false }
  else
    let code := pyStrip env.messageText
    if promoInputSuspicious code then
      { serviceCalled := false, commits := 0, rollbacks := 0,
        response := .notFound (pyUpper code), stateCleared := true,
        adminNotified := env.logSuspiciousActivity }
    else
      match env.applyResult with
      | (true, v) =>
        let endStr := match v with
          | .dt d => strftimeFullDateTime d
          | .txt _ => "N/A"
        { serviceCalled := true, commits := 1, rollbacks := 0,
          response := .successFull endStr (resolveConfigLink env.activeDetails),
          stateCleared := true, adminNotified := false }
      | (false, v) =>
        { serviceCalled := true, commits := 0, rollbacks := 1,
          response := .failVal v, stateCleared := true, adminNotified := false }

/- ===== start.py: referral resolution and the /start user phase ===== -/

/-- Persisted User row (db.models.User), the fields the handlers touch. -/
structure DbUser where
  userId : Int
  username : Option String
  firstName : Option String
  lastName : Option String
  languageCode : String
  referredById : Option Int
  referralCode : Option String
  channelSubscriptionVerified : Bool
  channelSubscriptionVerifiedFor : Option Int
deriving DecidableEq, Repr

/-- The users table. -/
structure UsersDb where
  users : List DbUser
deriving DecidableEq

/-- Lookup `user_dal.get_user_by_id`. -/
def get_user_by_id (db : UsersDb) (uid : Int) : Option DbUser :=
  db.users.find? (fun u => u.userId == uid)

/-- Lookup `user_dal.get_user_by_referral_code`. -/
def get_user_by_referral_code (db : UsersDb) (code : String) : Option DbUser :=
  db.users.find? (fun u => u.referralCode == some code)

/-- Step `if normalized and normalized[0].lower() == "u": normalized = normalized[1:]`. -/
def stripLeadingU (s : String) : String :=
  match s.toList with
  | [] => s
  | c :: rest => if c.toLower = 'u' then String.mk rest else s

/-- Referral-target resolution of `start_command_handler` (start.py lines
239-252): a bare digit payload is a legacy user id, accepted only behind
`LEGACY_REFS`, when it is not the caller and the user exists; otherwise the
payload is a referral code, stripped of one leading `u`/`U` after `strip()`
and looked up, accepted when the owner is not the caller. -/
def start_resolve_referral (legacyRefs : Bool) (callerId : Int) (raw : String)
    (db : UsersDb) : Option Int :=
  if pyIsDigits raw then
    if legacyRefs then
      let pid : Int := (pyStrToNat raw : Nat)
      if pid ≠ callerId ∧ (get_user_by_id db pid).isSome then some pid else none
    else none
  else
    let normalized := stripLeadingU (pyStrip raw)
    match get_user_by_referral_code db normalized with
    | some refUser => if refUser.userId ≠ callerId then some refUser.userId else none
    | none => none

/-- Python truthiness of the resolved referral id
(`if referred_by_user_id and ...`): a 0 id is falsy. -/
def pyTruthyId : Option Int → Bool
  | none => false
  | some r => decide (r ≠ 0)

/-- The existing-user patch of `start_command_handler` (lines 296-316):
language drift, first-time referral assignment (only when the active-subscription
check — whose failure is swallowed as `False` — did not report an active
subscription), and display-field drift. -/
def start_existing_user_patch (u : DbUser) (currentLang : String)
    (resolvedRef : Option Int) (hasActiveCheck : Option Bool)
    (su sf sl : Option String) : DbUser :=
  let isActive := hasActiveCheck.getD false
  let newRef :=
    if pyTruthyId resolvedRef = true ∧ u.referredById = none ∧ isActive = false
    then resolvedRef else u.referredById
  { u with
    languageCode := currentLang
    referredById := newRef
    username := su
    firstName := sf
    lastName := sl }

/-- The new-user record built by `start_command_handler` (lines 266-274). -/
def start_create_user (callerId : Int) (currentLang : String)
    (resolvedRef : Option Int) (su sf sl : Option String) : DbUser :=
  { userId := callerId, username := su, firstName := sf, lastName := sl,
    languageCode := currentLang, referredById := resolvedRef, referralCode := none,
    channelSubscriptionVerified := false, channelSubscriptionVerifiedFor := none }

/-- The user-record phase of one `/start` invocation: resolve the referral
payload, then create the user if absent or apply the minimal patch if present.
Returns the resulting user record. -/
def start_user_phase (legacyRefs : Bool) (callerId : Int) (refRaw : Option String)
    (db : UsersDb) (hasActiveCheck : Option Bool) (currentLang : String)
    (su sf sl : Option String) : DbUser :=
  let resolved := match refRaw with
    | some raw => start_resolve_referral legacyRefs callerId raw db
    | none => none
  match get_user_by_id db callerId with
  | none => start_create_user callerId currentLang resolved su sf sl
  | some u => start_existing_user_patch u currentLang resolved hasActiveCheck su sf sl

/- ===== start.py: ensure_required_channel_subscription ===== -/

/-- Platform errors distinguished by the gate's except clauses. -/
inductive TgErr
  | badRequest
  | forbidden
  | apiError
deriving DecidableEq

/-- Environment of one gate invocation: settings, the triggering event's
shape, the `db_user` argument, the DAL lookup outcome used when that argument
is absent, and the platform's chat-member answer were it queried. -/
structure GateEnv where
  requiredChannelId : Option Int
  isCallback : Bool
  callbackHasMessage : Bool
  adminIds : List Int
  userId : Int
  dbUserArg : Option DbUser
  dbLookup : Except Unit (Option DbUser)
  memberStatus : Except TgErr String

/-- Observable effects of one gate invocation. -/
structure GateOut where
  result : Bool
  queriedPlatform : Bool
  cacheWrite : Option Bool
  promptShown : Bool
  alertShown : Bool
deriving DecidableEq, Repr

/-- A gate return with no side effects. -/
def gateNoEffect (r : Bool) : GateOut :=
  { result := r, queriedPlatform := false, cacheWrite := none,
    promptShown := false, alertShown := false }

/-- The chat-member statuses the gate accepts. -/
def allowedChatMemberStatuses : List String :=
  ["creator", "administrator", "member", "restricted"]

/-- Shallow embedding of `ensure_required_channel_subscription` (start.py
lines 117-211).  No configured channel: pass.  No bot instance (a callback
without a message): fail.  Admin: pass.  DAL lookup failure: fail.  No user
record: pass.  Cached `verified == True` for the current channel: pass with
no platform query.  Otherwise query the platform: bad-request counts as a
definitive non-member answer (cached, prompt shown); forbidden/API errors
alert and fail without caching; a definitive status is cached and passes
exactly when it is in the allowed set, prompting otherwise. -/
def ensure_required_channel_subscription (env : GateEnv) : GateOut :=
  match env.requiredChannelId with
  | none => gateNoEffect true
  | some ch =>
    let botPresent := if env.isCallback then env.callbackHasMessage else true
    if botPresent = false then gateNoEffect false
    else if env.userId ∈ env.adminIds then gateNoEffect true
    else
      let fetched : Except Unit (Option DbUser) :=
        match env.dbUserArg with
        | some u => .ok (some u)
        | none => env.dbLookup
      match fetched with
      | .error _ => gateNoEffect false
      | .ok none => gateNoEffect true
      | .ok (some u) =>
        if u.channelSubscriptionVerified = true ∧
            u.channelSubscriptionVerifiedFor = some ch then
          gateNoEffect true
        else
          match env.memberStatus with
          | .error .forbidden =>
            { result := false, queriedPlatform := true, cacheWrite := none,
              promptShown := false, alertShown := env.isCallback }
          | .error .apiError =>
            { result := false, queriedPlatform := true, cacheWrite := none,
              promptShown := false, alertShown := env.isCallback }
          | .error .badRequest =>
            { result := false, queriedPlatform := true, cacheWrite := some false,
              promptShown := true, alertShown := env.isCallback }
          | .ok st =>
            if allowedChatMemberStatuses.contains st then
              { result := true, queriedPlatform := true, cacheWrite := some true,
                promptShown := false, alertShown := false }
            else
              { result := false, queriedPlatform := true, cacheWrite := some false,
                promptShown := true, alertShown := env.isCallback }

/- ===== trial_handler.py: _activate_trial and its two entry actions ===== -/

/-- The database facts touched by trial activation. -/
structure TrialDB where
  trialGranted : Bool
  adTrialMarked : Bool
deriving DecidableEq, Repr

/-- A transactional session over `TrialDB`: the last committed state and the
current (possibly uncommitted) state. -/
structure TrialSession where
  committed : TrialDB
  current : TrialDB
deriving DecidableEq, Repr

/-- Operation `session.commit()`. -/
def TrialSession.commit (s : TrialSession) : TrialSession :=
  { committed := s.current, current := s.current }

/-- Operation `session.rollback()`. -/
def TrialSession.rollback (s : TrialSession) : TrialSession :=
  { committed := s.committed, current := s.committed }

/-- Modelled from the spec: `SubscriptionService.activate_trial_subscription`
(the service module is outside the provided handler sources).  Per §4.6 it
returns an activation flag with details, and per §5 a commit follows a
successful state-changing step such as trial activation, so a successful call
leaves the granted trial committed; an unsuccessful call changes nothing. -/
def activate_trial_subscription (s : TrialSession) (succeeds : Bool) :
    TrialSession × Bool :=
  if succeeds then
    (TrialSession.commit { s with current := { s.current with trialGranted := true } }, true)
  else (s, false)

/-- The dict returned by `activate_trial_subscription` as the handler reads it. -/
structure TrialActivationResult where
  activated : Bool
  endDate : Option PyDateTime
  subscriptionUrl : Option String
  days : Option Nat
  trafficGb : Option Nat
  messageKey : Option String

/-- Environment of one `_activate_trial` invocation. -/
structure TrialEnv where
  i18nPresent : Bool
  hasMessage : Bool
  trialEnabled : Bool
  trialDurationDays : Nat
  trialTrafficGb : Nat
  hasHadAnySubscription : Bool
  activationResult : Option TrialActivationResult
  markStepFails : Bool
  session0 : TrialSession

/-- Alerts `_activate_trial` can answer with. -/
inductive TrialAlert
  | errorTryAgain
  | featureDisabled
  | alreadyHad
  | activated
  | failureKey (k : String)
deriving DecidableEq

/-- The final screen `_activate_trial` renders (edit, or send-clean fallback). -/
inductive TrialRender
  | successDetails (days : Nat) (endDate : String) (configLink : String) (traffic : String)
  | failureMenu (key : String) (showTrialBtn : Bool)
deriving DecidableEq

/-- Observable effects of one `_activate_trial` invocation. -/
structure TrialOut where
  activationInvoked : Bool
  alert : Option TrialAlert
  mainMenuShown : Bool
  render : Option TrialRender
  adminNotified : Bool
  session : TrialSession

/-- Shallow embedding of `_activate_trial` (trial_handler.py lines 25-152):
missing dependencies alert and stop; a disabled trial feature or a user who
ever had any subscription alert and re-render the main menu without invoking
activation; otherwise activation is attempted — on success the detail screen
is rendered, the admin is notified, and the ad-attribution trial marking is
committed, its failure rolling back only that marking; on failure the failure
key is alerted and the main menu markup is rebuilt. -/
def _activate_trial (env : TrialEnv) : TrialOut :=
  if !(env.i18nPresent && env.hasMessage) then
    { activationInvoked := false, alert := some .errorTryAgain,
      mainMenuShown := false, render := none, adminNotified := false,
      session := env.session0 }
  else if env.trialEnabled = false then
    { activationInvoked := false, alert := some .featureDisabled,
      mainMenuShown := true, render := none, adminNotified := false,
      session := env.session0 }
  else if env.hasHadAnySubscription = true then
    { activationInvoked := false, alert := some .alreadyHad,
      mainMenuShown := true, render := none, adminNotified := false,
      session := env.session0 }
  else
    match env.activationResult with
    | some r =>
      if r.activated = true then
        let s1 := (activate_trial_subscription env.session0 true).1
        let configLink := match r.subscriptionUrl with
          | some l => if l = "" then configLinkPlaceholder else l
          | none => configLinkPlaceholder
        let days := r.days.getD env.trialDurationDays
        let traffic := r.trafficGb.getD env.trialTrafficGb
        let trafficDisp :=
          if traffic > 0 then toString traffic ++ " GB" else "traffic_unlimited"
        let endStr := match r.endDate with
          | some d => strftimeDateOnly d
          | none => "N/A"
        let s2 := if env.markStepFails then s1.rollback
          else TrialSession.commit
            { s1 with current := { s1.current with adTrialMarked := true } }
        { activationInvoked := true, alert := some .activated,
          mainMenuShown := false,
          render := some (.successDetails days endStr configLink trafficDisp),
          adminNotified := true, session := s2 }
      else
        let key := r.messageKey.getD "trial_activation_failed"
        { activationInvoked := true, alert := some (.failureKey key),
          mainMenuShown := false,
          render := some (.failureMenu key
            (env.trialEnabled && !env.hasHadAnySubscription)),
          adminNotified := false,
          session := (activate_trial_subscription env.session0 false).1 }
    | none =>
      { activationInvoked := true,
        alert := some (.failureKey "trial_activation_failed"),
        mainMenuShown := false,
        render := some (.failureMenu "trial_activation_failed"
          (env.trialEnabled && !env.hasHadAnySubscription)),
        adminNotified := false,
        session := (activate_trial_subscription env.session0 false).1 }

/-- Entry point `trial_action:request` — delegates to `_activate_trial`. -/
def request_trial_confirmation_handler (env : TrialEnv) : TrialOut :=
  _activate_trial env

/-- Entry point `trial_action:confirm_activate` — delegates to `_activate_trial`. -/
def confirm_activate_trial_handler (env : TrialEnv) : TrialOut :=
  _activate_trial env

/- ===== subscription/core.py: confirm_autorenew_handler ===== -/

/-- Persisted Subscription row, the fields the handler touches. -/
structure SubscriptionRow where
  subscriptionId : Int
  userId : Int
  provider : String
  autoRenewEnabled : Bool
deriving DecidableEq, Repr

/-- Environment of one `autorenew:confirm` invocation. -/
structure AutorenewEnv where
  parseOk : Bool
  enable : Bool
  subLookup : Option SubscriptionRow
  callerId : Int
  hasSavedPaymentMethod : Bool

/-- Alerts the confirm handler can answer with. -/
inductive AutorenewAlert
  | errorTryAgain
  | notSupportedTribute
  | requiresCard
  | updated
deriving DecidableEq

/-- Observable effects of one `autorenew:confirm` invocation:
`write` is the persisted `(subscription_id, auto_renew_enabled)` patch,
`cardChecked` records whether the saved-payment-method DAL lookup ran. -/
structure AutorenewOut where
  alert : Option AutorenewAlert
  write : Option (Int × Bool)
  committed : Bool
  cardChecked : Bool
  statusScreenShown : Bool
deriving DecidableEq

/-- Shallow embedding of `confirm_autorenew_handler` (core.py lines 486-534):
malformed data, a missing subscription, or one not owned by the caller alert
and stop; a tribute-provider subscription is rejected before any card check;
enabling without a saved payment method is rejected; otherwise the flag is
persisted, committed, and the status screen re-rendered. -/
def confirm_autorenew_handler (env : AutorenewEnv) : AutorenewOut :=
  if env.parseOk = false then
    { alert := some .errorTryAgain, write := none, committed := false,
      cardChecked := false, statusScreenShown := false }
  else
    match env.subLookup with
    | none =>
      { alert := some .errorTryAgain, write := none, committed := false,
        cardChecked := false, statusScreenShown := false }
    | some sub =>
      if sub.userId ≠ env.callerId then
        { alert := some .errorTryAgain, write := none, committed := false,
          cardChecked := false, statusScreenShown := false }
      else if sub.provider = "tribute" then
        { alert := some .notSupportedTribute, write := none, committed := false,
          cardChecked := false, statusScreenShown := false }
      else if env.enable && !env.hasSavedPaymentMethod then
        { alert := some .requiresCard, write := none, committed := false,
          cardChecked := true, statusScreenShown := false }
      else
        { alert := some .updated, write := some (sub.subscriptionId, env.enable),
          committed := true, cardChecked := env.enable,
          statusScreenShown := true }

/- ===== subscription/payment_methods.py: pm:bind and title formatting ===== -/

/-- Arguments of the `yookassa_service.create_payment` call made by
`payment_method_bind`. -/
structure BindRequest where
  amount : ℚ
  currency : String
  description : String
  metadataUserId : String
  metadataBindOnly : String
  receiptEmail : String
  savePaymentMethod : Bool
  capture : Bool
  bindOnly : Bool
deriving DecidableEq

/-- Environment of one `pm:bind` invocation.  `gatewayConfirmationUrl` is the
gateway's answer were the payment created: `none` models a falsy response
object, `some u` a response whose `confirmation_url` field is `u`. -/
structure BindEnv where
  autopaymentsEnabled : Bool
  callerId : Int
  defaultCurrencySymbol : String
  receiptEmail : String
  gatewayConfirmationUrl : Option (Option String)

/-- Observable effects of one `pm:bind` invocation. -/
structure BindOut where
  created : Option BindRequest
  alert : Option String
  linkScreenUrl : Option String
deriving DecidableEq

/-- Shallow embedding of `payment_method_bind` (payment_methods.py lines
122-180): gated on autopayments; creates a 1.00 RUB non-captured
save-method bind-only payment carrying the caller's id and a bind marker in
metadata; a missing (or falsy) confirmation URL surfaces a gateway-error
alert, otherwise the URL is presented as a link keyboard. -/
def payment_method_bind (env : BindEnv) : BindOut :=
  if env.autopaymentsEnabled = false then
    { created := none, alert := some "error_service_unavailable",
      linkScreenUrl := none }
  else
    let req : BindRequest :=
      { amount := 1, currency := "RUB", description := "Bind card",
        metadataUserId := toString env.callerId, metadataBindOnly := "1",
        receiptEmail := env.receiptEmail, savePaymentMethod := true,
        capture := false, bindOnly := true }
    match env.gatewayConfirmationUrl with
    | none =>
      { created := some req, alert := some "error_payment_gateway",
        linkScreenUrl := none }
    | some u =>
      if u.getD "" = "" then
        { created := some req, alert := some "error_payment_gateway",
          linkScreenUrl := none }
      else
        { created := some req, alert := none, linkScreenUrl := some (u.getD "") }

/-- Predicate `_is_yoomoney_network`: case-insensitive containment of one of the three
accepted spellings. -/
def is_yoomoney_network (network : Option String) : Bool :=
  let s := (pyLower (network.getD "")).toList
  containsSeq "yoomoney".toList s || containsSeq "yoo money".toList s ||
  containsSeq "yoo-money".toList s

/-- Helper `_extract_last4`: all digit characters of the string in order, keeping the
last four when at least four exist. -/
def extract_last4 (text : String) : Option String :=
  if (text.toList.filter Char.isDigit).length ≥ 4 then
    some (String.mk ((text.toList.filter Char.isDigit).drop
      ((text.toList.filter Char.isDigit).length - 4)))
  else none

/-- A formatted payment-method title: the i18n template used plus its
parameters. -/
inductive PmTitle
  | wallet (last4 : String)
  | card (network : String) (last4 : String)
  | generic (network : String)
deriving DecidableEq

/-- Shallow embedding of `_format_pm_title` (payment_methods.py lines 36-51).
A falsy (absent or empty) saved last-4 falls back to extraction from the
network string; the two generic templates substitute localized defaults
(kept as their i18n key tokens) for a falsy network name. -/
def format_pm_title (network : Option String) (last4 : Option String) : PmTitle :=
  if is_yoomoney_network network then
    let l4 := if last4.getD "" = "" then extract_last4 (network.getD "") else last4
    match l4 with
    | some s => if s = "" then .wallet "****" else .wallet s
    | none => .wallet "****"
  else if last4.getD "" ≠ "" then
    let networkName :=
      if network.getD "" = "" then "payment_network_card" else network.getD ""
    .card networkName (last4.getD "")
  else
    let networkName :=
      if network.getD "" = "" then "payment_network_generic" else network.getD ""
    .generic networkName

/-- Stated from the claim's words, for comparison with `extract_last4`: the
maximal runs of consecutive digit characters. -/
def digitRunsAux : List Char → List Char → List (List Char)
  | acc, [] => if acc.isEmpty then [] else [acc.reverse]
  | acc, c :: rest =>
    if c.isDigit then digitRunsAux (c :: acc) rest
    else if acc.isEmpty then digitRunsAux [] rest
    else acc.reverse :: digitRunsAux [] rest

/-- Stated from the claim's words: the longest run of consecutive digits
(first such run on ties). -/
def longestDigitRun (s : String) : List Char :=
  (digitRunsAux [] s.toList).foldl
    (fun best r => if r.length > best.length then r else best) []

/-- Stated from the claim's words: the last 4 digits extracted from the
longest digit run, when that run has at least four digits. -/
def last4OfLongestRun (s : String) : Option String :=
  let run := longestDigitRun s
  if run.length ≥ 4 then some (String.mk (run.drop (run.length - 4))) else none

/-- The amended title rule, stated independently of `format_pm_title`:
a wallet-spelling network uses the saved last-4 when present and nonempty,
else the last four of all digit characters of the network string in order,
else a `****` placeholder; otherwise a known last-4 gives the card template
and anything else the generic template, both defaulting a falsy network name. -/
def pmTitleAmendedSpec (network last4 : Option String) : PmTitle :=
  let net := network.getD ""
  let l4given := last4.getD ""
  if is_yoomoney_network network then
    if l4given ≠ "" then .wallet l4given
    else
      match extract_last4 net with
      | some s => .wallet s
      | none => .wallet "****"
  else if l4given ≠ "" then
    .card (if net = "" then "payment_network_card" else net) l4given
  else
    .generic (if net = "" then "payment_network_generic" else net)

example : format_pm_title (some "YooMoney **** 1234") none = .wallet "1234" := by decide
example : format_pm_title (some "Visa") (some "4242") = .card "Visa" "4242" := by decide
example : format_pm_title none none = .generic "payment_network_generic" := by decide
example : format_pm_title (some "yoomoney 12345 6") none = .wallet "3456" := by decide
example : last4OfLongestRun "yoomoney 12345 6" = some "2345" := by decide

/- ===== Concrete environments used by the witness theorems ===== -/

/-- A promo invocation with a suspicious input. -/
def promoEnvReject : PromoEnv :=
  { i18nPresent := true, servicePresent := true,
    messageText := " drop table users ", logSuspiciousActivity := true,
    applyResult := (true, .txt "unused"), activeDetails := none }

/-- A promo invocation whose service application succeeds. -/
def promoEnvSuccess : PromoEnv :=
  { i18nPresent := true, servicePresent := true, messageText := " SUMMER2025 ",
    logSuspiciousActivity := false,
    applyResult := (true, .dt ⟨2025, 4, 5, 10, 20, 30⟩),
    activeDetails := some (some "https://vpn.example/cfg") }

/-- A promo invocation whose service application fails. -/
def promoEnvFailure : PromoEnv :=
  { i18nPresent := true, servicePresent := true, messageText := "WINTER",
    logSuspiciousActivity := false,
    applyResult := (false, .txt "promo expired"), activeDetails := none }

/-- A registered user owning referral code `ABCDEF123`. -/
def dbUserTen : DbUser :=
  { userId := 10, username := none, firstName := none, lastName := none,
    languageCode := "ru", referredById := none, referralCode := some "ABCDEF123",
    channelSubscriptionVerified := false, channelSubscriptionVerifiedFor := none }

/-- A registered user whose referrer is already recorded. -/
def dbUserSeven : DbUser :=
  { userId := 7, username := some "seven", firstName := some "Seven",
    lastName := none, languageCode := "ru", referredById := some 10,
    referralCode := none, channelSubscriptionVerified := false,
    channelSubscriptionVerifiedFor := none }

/-- A two-user table. -/
def usersDb1 : UsersDb := ⟨[dbUserTen, dbUserSeven]⟩

/-- A user with a cached failed verification for channel 100. -/
def gateUserCachedFalse : DbUser :=
  { userId := 42, username := none, firstName := none, lastName := none,
    languageCode := "ru", referredById := none, referralCode := none,
    channelSubscriptionVerified := false, channelSubscriptionVerifiedFor := some 100 }

/-- A user with a cached passed verification for channel 100. -/
def gateUserCachedTrue : DbUser :=
  { userId := 43, username := none, firstName := none, lastName := none,
    languageCode := "ru", referredById := none, referralCode := none,
    channelSubscriptionVerified := true, channelSubscriptionVerifiedFor := some 100 }

/-- Gate invocation: cached false verification for the required channel,
platform would answer `member`. -/
def gateEnvCachedFalse : GateEnv :=
  { requiredChannelId := some 100, isCallback := false, callbackHasMessage := false,
    adminIds := [], userId := 42, dbUserArg := some gateUserCachedFalse,
    dbLookup := .ok none, memberStatus := .ok "member" }

/-- Gate invocation: cached passed verification for the required channel. -/
def gateEnvCachedTrue : GateEnv :=
  { requiredChannelId := some 100, isCallback := false, callbackHasMessage := false,
    adminIds := [], userId := 43, dbUserArg := some gateUserCachedTrue,
    dbLookup := .ok none, memberStatus := .error .apiError }

/-- Gate invocation by an unregistered non-admin caller via the verify callback. -/
def gateEnvUnregistered : GateEnv :=
  { requiredChannelId := some 100, isCallback := true, callbackHasMessage := true,
    adminIds := [1, 2], userId := 42, dbUserArg := none,
    dbLookup := .ok none, memberStatus := .error .apiError }

/-- A trial invocation by a user who already had a subscription. -/
def trialEnvHad : TrialEnv :=
  { i18nPresent := true, hasMessage := true, trialEnabled := true,
    trialDurationDays := 3, trialTrafficGb := 10, hasHadAnySubscription := true,
    activationResult := none, markStepFails := false,
    session0 := ⟨⟨true, false⟩, ⟨true, false⟩⟩ }

/-- A successful activation-service result. -/
def trialResultOk : TrialActivationResult :=
  { activated := true, endDate := some ⟨2025, 1, 10, 0, 0, 0⟩,
    subscriptionUrl := some "https://vpn.example/trial",
    days := some 3, trafficGb := some 10, messageKey := none }

/-- A trial invocation where activation succeeds but the ad-attribution
marking step fails. -/
def trialEnvMarkFail : TrialEnv :=
  { i18nPresent := true, hasMessage := true, trialEnabled := true,
    trialDurationDays := 3, trialTrafficGb := 10, hasHadAnySubscription := false,
    activationResult := some trialResultOk, markStepFails := true,
    session0 := ⟨⟨false, false⟩, ⟨false, false⟩⟩ }

/-- A tribute-provider subscription owned by user 9. -/
def autorenewSubTribute : SubscriptionRow :=
  { subscriptionId := 5, userId := 9, provider := "tribute",
    autoRenewEnabled := false }

/-- A gateway-provider subscription owned by user 9. -/
def autorenewSubCard : SubscriptionRow :=
  { subscriptionId := 6, userId := 9, provider := "yookassa",
    autoRenewEnabled := false }

/-- Confirm-enable on the tribute subscription with a saved card present. -/
def autorenewEnvTribute : AutorenewEnv :=
  { parseOk := true, enable := true, subLookup := some autorenewSubTribute,
    callerId := 9, hasSavedPaymentMethod := true }

/-- Confirm-enable on the gateway subscription with no saved card. -/
def autorenewEnvNoCard : AutorenewEnv :=
  { parseOk := true, enable := true, subLookup := some autorenewSubCard,
    callerId := 9, hasSavedPaymentMethod := false }

/-- A bind invocation with a non-RUB configured currency symbol and a
successful gateway answer. -/
def bindEnvUsd : BindEnv :=
  { autopaymentsEnabled := true, callerId := 42, defaultCurrencySymbol := "USD",
    receiptEmail := "receipts@example.com",
    gatewayConfirmationUrl := some (some "https://pay.example/confirm") }

/-- A bind invocation whose gateway answer lacks a confirmation URL. -/
def bindEnvNoUrl : BindEnv :=
  { autopaymentsEnabled := true, callerId := 42, defaultCurrencySymbol := "RUB",
    receiptEmail := "receipts@example.com", gatewayConfirmationUrl := some none }

/- ===== Theorems ===== -/

/-- C4: every submitted promo input that (after stripping) is empty, longer
than 100 characters, or matched by the suspicious SQL-keyword regex or the
suspicious character-sequence regex, is rejected without calling the promo
service, without any commit, and the user receives the generic not-found
message echoing their uppercased input. -/
theorem C4_promo_input_rejection (env : PromoEnv)
    (hi : env.i18nPresent = true) (hs : env.servicePresent = true)
    (hbad : pyStrip env.messageText = "" ∨
        (pyStrip env.messageText).length > MAX_PROMO_CODE_INPUT_LENGTH ∨
        sqlKeywordMatches (pyStrip env.messageText) = true ∨
        suspiciousChars (pyStrip env.messageText) = true) :
    (process_promo_code_input env).serviceCalled = false ∧
    (process_promo_code_input env).commits = 0 ∧
    (process_promo_code_input env).response =
      PromoResponse.notFound (pyUpper (pyStrip env.messageText)) := by
  have hsusp : promoInputSuspicious (pyStrip env.messageText) = true := by
    unfold promoInputSuspicious
    rcases hbad with h | h | h | h <;>
      simp [h, decide_eq_true_eq]
  unfold process_promo_code_input
  simp [hi, hs, hsusp]

/-- Witness for C4 at a concrete suspicious input. -/
theorem C4_promo_input_rejection_witness :
    (process_promo_code_input promoEnvReject).serviceCalled = false ∧
    (process_promo_code_input promoEnvReject).response =
      PromoResponse.notFound "DROP TABLE USERS" := by
  have h := C4_promo_input_rejection promoEnvReject rfl rfl
    (Or.inr (Or.inr (Or.inl (by decide))))
  refine ⟨h.1, ?_⟩
  rw [h.2.2]
  decide

/-- C5: for input that passes validation, a service success performs exactly
one commit and no rollback, and the response carries the formatted new end
date together with the resolved connect link — which is the stored link when
one exists and the localized placeholder otherwise; a service failure
performs exactly one rollback and shows the service-provided value; and the
captured-input state is cleared on every path of the handler. -/
theorem C5_promo_valid_path (env : PromoEnv)
    (hi : env.i18nPresent = true) (hs : env.servicePresent = true)
    (hok : promoInputSuspicious (pyStrip env.messageText) = false) :
    (∀ d : PyDateTime, env.applyResult = (true, .dt d) →
        (process_promo_code_input env).serviceCalled = true ∧
        (process_promo_code_input env).commits = 1 ∧
        (process_promo_code_input env).rollbacks = 0 ∧
        (process_promo_code_input env).response =
          PromoResponse.successFull (strftimeFullDateTime d)
            (resolveConfigLink env.activeDetails)) ∧
    (∀ v : PromoServiceVal, env.applyResult = (false, v) →
        (process_promo_code_input env).serviceCalled = true ∧
        (process_promo_code_input env).commits = 0 ∧
        (process_promo_code_input env).rollbacks = 1 ∧
        (process_promo_code_input env).response = PromoResponse.failVal v) ∧
    (∀ l : String, l ≠ "" → resolveConfigLink (some (some l)) = l) ∧
    (resolveConfigLink (some none) = configLinkPlaceholder ∧
     resolveConfigLink none = configLinkPlaceholder) ∧
    (∀ e : PromoEnv, (process_promo_code_input e).stateCleared = true) := by
  refine ⟨?_, ?_, ?_, ⟨rfl, rfl⟩, ?_⟩
  · intro d hd
    unfold process_promo_code_input
    simp [hi, hs, hok, hd]
  · intro v hv
    unfold process_promo_code_input
    simp [hi, hs, hok, hv]
  · intro l hl
    simp [resolveConfigLink, hl]
  · intro e
    unfold process_promo_code_input
    rcases he : e.applyResult with ⟨b, v⟩
    cases hb1 : e.i18nPresent <;> cases hb2 : e.servicePresent <;> cases b <;>
      simp [he, hb1, hb2] <;> split <;> rfl

/-- Witness for C5 at concrete success and failure environments. -/
theorem C5_promo_valid_path_witness :
    (process_promo_code_input promoEnvSuccess).commits = 1 ∧
    (process_promo_code_input promoEnvSuccess).response =
      PromoResponse.successFull "05.04.2025 10:20:30" "https://vpn.example/cfg" ∧
    (process_promo_code_input promoEnvFailure).rollbacks = 1 ∧
    (process_promo_code_input promoEnvFailure).response =
      PromoResponse.failVal (.txt "promo expired") ∧
    (process_promo_code_input promoEnvSuccess).stateCleared = true := by
  have hS := C5_promo_valid_path promoEnvSuccess rfl rfl (by decide)
  have hF := C5_promo_valid_path promoEnvFailure rfl rfl (by decide)
  have ha := hS.1 ⟨2025, 4, 5, 10, 20, 30⟩ rfl
  have hb := hF.2.1 (.txt "promo expired") rfl
  refine ⟨ha.2.1, ?_, hb.2.2.1, hb.2.2.2, hS.2.2.2.2 promoEnvSuccess⟩
  rw [ha.2.2.2]
  decide

/-- Referral resolution never yields the caller's own id. -/
lemma start_resolve_referral_ne_self (lg : Bool) (caller : Int) (raw : String)
    (db : UsersDb) : start_resolve_referral lg caller raw db ≠ some caller := by
  unfold start_resolve_referral
  by_cases hd : pyIsDigits raw = true
  · simp only [hd, if_true]
    by_cases hl : lg = true
    · simp only [hl, if_true]
      split
      · next hcond =>
        simp only [ne_eq, Option.some.injEq]
        intro hc
        exact hcond.1 hc
      · simp
    · simp [hl]
  · simp only [hd, Bool.false_eq_true, if_false]
    rcases hm : get_user_by_referral_code db (stripLeadingU (pyStrip raw)) with _ | u
    · simp [hm]
    · simp only [hm]
      split
      · next hne =>
        simp only [ne_eq, Option.some.injEq]
        intro hc
        exact hne hc
      · simp

/-- C1: a numeric legacy referral id resolves to a referral target only when
the legacy flag is on, the id is not the caller's own, and such a user
exists; a code payload is looked up after one leading `u`/`U` is stripped
from the stripped raw token; resolution never yields the caller; an
already-set `referred_by_id` survives any later `/start` with any referral
payload; a first-time assignment happens only when the active-subscription
check did not report an active subscription; and `referred_by_id` is never
set to the user's own id. -/
theorem C1_referral_assignment (lg : Bool) (caller : Int) (raw : String)
    (db : UsersDb) (refRaw : Option String) (chk : Option Bool) (lang : String)
    (su sf sl : Option String) :
    (∀ p : Int, pyIsDigits raw = true →
        start_resolve_referral lg caller raw db = some p →
        lg = true ∧ p ≠ caller ∧ (get_user_by_id db p).isSome = true ∧
          p = ((pyStrToNat raw : Nat) : Int)) ∧
    (pyIsDigits raw = false →
        start_resolve_referral lg caller raw db =
          (match get_user_by_referral_code db (stripLeadingU (pyStrip raw)) with
           | some refUser =>
             if refUser.userId ≠ caller then some refUser.userId else none
           | none => none)) ∧
    (start_resolve_referral lg caller raw db ≠ some caller) ∧
    (∀ u r, get_user_by_id db caller = some u → u.referredById = some r →
        (start_user_phase lg caller refRaw db chk lang su sf sl).referredById =
          some r) ∧
    (∀ u, get_user_by_id db caller = some u → u.referredById = none →
        ((start_user_phase lg caller refRaw db chk lang su sf sl).referredById).isSome
          = true →
        chk ≠ some true) ∧
    (∀ u, get_user_by_id db caller = some u → u.referredById ≠ some caller →
        (start_user_phase lg caller refRaw db chk lang su sf sl).referredById ≠
          some caller) ∧
    (get_user_by_id db caller = none →
        (start_user_phase lg caller refRaw db chk lang su sf sl).referredById ≠
          some caller) := by
  have hphase_ne :
      (match refRaw with
       | some r => start_resolve_referral lg caller r db
       | none => none) ≠ some caller := by
    rcases refRaw with _ | r
    · simp
    · exact start_resolve_referral_ne_self lg caller r db
  refine ⟨?_, ?_, start_resolve_referral_ne_self lg caller raw db, ?_, ?_, ?_, ?_⟩
  · intro p hd hres
    unfold start_resolve_referral at hres
    simp only [hd, if_true] at hres
    by_cases hl : lg = true
    · simp only [hl, if_true] at hres
      split at hres
      · next hcond =>
        rw [Option.some.injEq] at hres
        subst hres
        exact ⟨hl, hcond.1, by simpa using hcond.2, rfl⟩
      · exact absurd hres (by simp)
    · simp [hl] at hres
  · intro hd
    unfold start_resolve_referral
    simp [hd]
  · intro u r hget hr
    unfold start_user_phase
    rw [hget]
    unfold start_existing_user_patch
    simp [hr]
  · intro u hget hnone hsome hchk
    unfold start_user_phase at hsome
    rw [hget] at hsome
    unfold start_existing_user_patch at hsome
    simp only [hnone, hchk] at hsome
    simp at hsome
  · intro u hget hne
    unfold start_user_phase
    rw [hget]
    unfold start_existing_user_patch
    simp only []
    split
    · next hcond =>
      exact fun hc => hphase_ne hc
    · exact hne
  · intro hget
    unfold start_user_phase
    rw [hget]
    unfold start_create_user
    exact fun hc => hphase_ne hc

/-- Witness for C1: the already-set referrer of user 7 survives a later
`/start` carrying a fresh referral payload, and a self-referral never
resolves. -/
theorem C1_referral_assignment_witness :
    (start_user_phase true 7 (some "999") usersDb1 (some false) "ru"
      none none none).referredById = some 10 ∧
    start_resolve_referral true 7 "7" usersDb1 ≠ some 7 := by
  have h := C1_referral_assignment true 7 "7" usersDb1 (some "999") (some false)
    "ru" none none none
  exact ⟨h.2.2.2.1 dbUserSeven 10 (by decide) rfl, h.2.2.1⟩

/-- C6 counterexample: a non-admin caller whose persisted verification result
for the currently required channel is `false` is NOT answered from the cache:
the platform is queried, and here the gate returns `true` (the fresh
membership answer), not the cached `false`. -/
theorem C6_channel_gate_counterexample :
    gateEnvCachedFalse.dbUserArg = some gateUserCachedFalse ∧
    gateUserCachedFalse.channelSubscriptionVerified = false ∧
    gateUserCachedFalse.channelSubscriptionVerifiedFor =
      gateEnvCachedFalse.requiredChannelId ∧
    gateEnvCachedFalse.adminIds = [] ∧
    (ensure_required_channel_subscription gateEnvCachedFalse).queriedPlatform
      = true ∧
    (ensure_required_channel_subscription gateEnvCachedFalse).result = true := by
  refine ⟨rfl, rfl, rfl, rfl, ?_, ?_⟩ <;> decide

/-- C6 (amended): the cached verification short-circuits the gate only when
it is a positive result recorded for the currently required channel — then
the gate passes with no platform query and no other effect; any other cached
state (a recorded `false`, or a different channel id) triggers a fresh
platform query. -/
theorem C6_channel_gate_cache (env : GateEnv) (ch : Int) (u : DbUser)
    (hch : env.requiredChannelId = some ch)
    (hbot : (if env.isCallback then env.callbackHasMessage else true) = true)
    (hadmin : env.userId ∉ env.adminIds)
    (harg : env.dbUserArg = some u) :
    (u.channelSubscriptionVerified = true →
        u.channelSubscriptionVerifiedFor = some ch →
        ensure_required_channel_subscription env = gateNoEffect true) ∧
    (¬(u.channelSubscriptionVerified = true ∧
        u.channelSubscriptionVerifiedFor = some ch) →
        (ensure_required_channel_subscription env).queriedPlatform = true) := by
  constructor
  · intro hv hfor
    unfold ensure_required_channel_subscription
    rw [hch]
    simp [hbot, hadmin, harg, hv, hfor]
  · intro hnc
    unfold ensure_required_channel_subscription
    rw [hch]
    rcases hms : env.memberStatus with e | st
    · cases e <;> simp [hbot, hadmin, harg, hnc, hms]
    · simp only [hbot, hadmin, harg, hnc, hms]
      simp [hnc]
      split <;> rfl

/-- Witness for the amended C6: a cached positive verification passes with no
effects; a cached negative one triggers a platform query. -/
theorem C6_channel_gate_cache_witness :
    ensure_required_channel_subscription gateEnvCachedTrue = gateNoEffect true ∧
    (ensure_required_channel_subscription gateEnvCachedFalse).queriedPlatform
      = true := by
  have h1 := C6_channel_gate_cache gateEnvCachedTrue 100 gateUserCachedTrue
    rfl rfl (by decide) rfl
  have h2 := C6_channel_gate_cache gateEnvCachedFalse 100 gateUserCachedFalse
    rfl rfl (by decide) rfl
  exact ⟨h1.1 rfl rfl, h2.2 (by decide)⟩

/-- C10: a non-admin caller with no User record passes the gate
unconditionally — the gate returns true without querying the platform,
without showing any prompt, and without writing any cache entry. -/
theorem C10_unregistered_passes_gate (env : GateEnv)
    (hbot : (if env.isCallback then env.callbackHasMessage else true) = true)
    (hadmin : env.userId ∉ env.adminIds)
    (harg : env.dbUserArg = none)
    (hlookup : env.dbLookup = Except.ok none) :
    (ensure_required_channel_subscription env).result = true ∧
    (ensure_required_channel_subscription env).queriedPlatform = false ∧
    (ensure_required_channel_subscription env).promptShown = false ∧
    (ensure_required_channel_subscription env).cacheWrite = none := by
  unfold ensure_required_channel_subscription
  rcases hch : env.requiredChannelId with _ | ch
  · simp [gateNoEffect]
  · simp [hbot, hadmin, harg, hlookup, gateNoEffect]

/-- Witness for C10: a concrete unregistered non-admin caller reaching the
gate through the verify callback. -/
theorem C10_unregistered_passes_gate_witness :
    (ensure_required_channel_subscription gateEnvUnregistered).result = true ∧
    (ensure_required_channel_subscription gateEnvUnregistered).queriedPlatform
      = false := by
  have h := C10_unregistered_passes_gate gateEnvUnregistered rfl (by decide)
    rfl rfl
  exact ⟨h.1, h.2.1⟩

/-- C2: a user who has ever had any subscription is rejected by both trial
entry actions: activation is never invoked and the session is untouched, and
— whenever the handler's dependencies are present — an alert is answered
(the already-had alert when the feature is enabled, the disabled alert
otherwise) and the main menu is re-rendered. -/
theorem C2_trial_idempotence (env : TrialEnv)
    (hhad : env.hasHadAnySubscription = true) :
    (request_trial_confirmation_handler env).activationInvoked = false ∧
    (confirm_activate_trial_handler env).activationInvoked = false ∧
    (request_trial_confirmation_handler env).session = env.session0 ∧
    (confirm_activate_trial_handler env).session = env.session0 ∧
    (env.i18nPresent = true → env.hasMessage = true →
        (request_trial_confirmation_handler env).alert =
          some (if env.trialEnabled then TrialAlert.alreadyHad
                else TrialAlert.featureDisabled) ∧
        (request_trial_confirmation_handler env).mainMenuShown = true ∧
        (confirm_activate_trial_handler env).alert =
          some (if env.trialEnabled then TrialAlert.alreadyHad
                else TrialAlert.featureDisabled) ∧
        (confirm_activate_trial_handler env).mainMenuShown = true) := by
  unfold request_trial_confirmation_handler confirm_activate_trial_handler
    _activate_trial
  cases hi : env.i18nPresent <;> cases hm : env.hasMessage <;>
    cases ht : env.trialEnabled <;> simp [hhad, hi, hm, ht]

/-- Witness for C2 at a concrete user who already had a subscription. -/
theorem C2_trial_idempotence_witness :
    (request_trial_confirmation_handler trialEnvHad).activationInvoked = false ∧
    (request_trial_confirmation_handler trialEnvHad).alert =
      some TrialAlert.alreadyHad ∧
    (confirm_activate_trial_handler trialEnvHad).mainMenuShown = true := by
  have h := C2_trial_idempotence trialEnvHad rfl
  have h5 := h.2.2.2.2 rfl rfl
  refine ⟨h.1, ?_, h5.2.2.2⟩
  rw [h5.1]
  decide

/-- C7: when trial activation succeeds but the subsequent ad-attribution
marking step fails, only that marking is rolled back: the committed trial
grant survives, the ad-attribution mark is unchanged from before the
invocation, the session ends clean, and the flow still completes for the
user — activation was invoked, the "activated" alert was answered, and the
success detail screen was rendered. -/
theorem C7_trial_attribution_atomicity (env : TrialEnv)
    (r : TrialActivationResult)
    (hi : env.i18nPresent = true) (hm : env.hasMessage = true)
    (hen : env.trialEnabled = true) (hnot : env.hasHadAnySubscription = false)
    (hres : env.activationResult = some r) (hact : r.activated = true)
    (hfail : env.markStepFails = true)
    (hclean : env.session0.current = env.session0.committed) :
    (_activate_trial env).session.committed.trialGranted = true ∧
    (_activate_trial env).session.committed.adTrialMarked =
      env.session0.committed.adTrialMarked ∧
    (_activate_trial env).session.current = (_activate_trial env).session.committed ∧
    (_activate_trial env).activationInvoked = true ∧
    (_activate_trial env).alert = some TrialAlert.activated ∧
    (_activate_trial env).render = some (TrialRender.successDetails
      (r.days.getD env.trialDurationDays)
      (match r.endDate with | some d => strftimeDateOnly d | none => "N/A")
      (match r.subscriptionUrl with
       | some l => if l = "" then configLinkPlaceholder else l
       | none => configLinkPlaceholder)
      (if r.trafficGb.getD env.trialTrafficGb > 0
       then toString (r.trafficGb.getD env.trialTrafficGb) ++ " GB"
       else "traffic_unlimited")) := by
  unfold _activate_trial activate_trial_subscription
  simp [hi, hm, hen, hnot, hres, hact, hfail,
    TrialSession.commit, TrialSession.rollback, hclean]

/-- Witness for C7 at a concrete successful activation whose marking step
fails. -/
theorem C7_trial_attribution_atomicity_witness :
    (_activate_trial trialEnvMarkFail).session.committed.trialGranted = true ∧
    (_activate_trial trialEnvMarkFail).session.committed.adTrialMarked = false ∧
    (_activate_trial trialEnvMarkFail).alert = some TrialAlert.activated ∧
    (_activate_trial trialEnvMarkFail).render = some
      (TrialRender.successDetails 3 "2025-01-10" "https://vpn.example/trial"
        "10 GB") := by
  have h := C7_trial_attribution_atomicity trialEnvMarkFail trialResultOk
    rfl rfl rfl rfl rfl rfl rfl rfl
  refine ⟨h.1, h.2.1, h.2.2.2.2.1, ?_⟩
  rw [h.2.2.2.2.2]
  decide

/-- C3: on a confirm request for a subscription owned by the caller, a
tribute-provider subscription is rejected outright — before the saved-card
lookup ever runs — and enabling without a saved payment method is rejected
after that lookup; in both rejection cases no auto-renew flag is written and
nothing is committed. -/
theorem C3_autorenew_confirm_guard (env : AutorenewEnv) (sub : SubscriptionRow)
    (hp : env.parseOk = true) (hs : env.subLookup = some sub)
    (hown : sub.userId = env.callerId) :
    (sub.provider = "tribute" →
        confirm_autorenew_handler env =
          { alert := some AutorenewAlert.notSupportedTribute, write := none,
            committed := false, cardChecked := false,
            statusScreenShown := false }) ∧
    (sub.provider ≠ "tribute" → env.enable = true →
        env.hasSavedPaymentMethod = false →
        confirm_autorenew_handler env =
          { alert := some AutorenewAlert.requiresCard, write := none,
            committed := false, cardChecked := true,
            statusScreenShown := false }) := by
  constructor
  · intro htri
    unfold confirm_autorenew_handler
    simp [hp, hs, hown, htri]
  · intro htri hen hcard
    unfold confirm_autorenew_handler
    simp [hp, hs, hown, htri, hen, hcard]

/-- Witness for C3 at a concrete tribute subscription and a concrete
enable-without-card request. -/
theorem C3_autorenew_confirm_guard_witness :
    (confirm_autorenew_handler autorenewEnvTribute).alert =
      some AutorenewAlert.notSupportedTribute ∧
    (confirm_autorenew_handler autorenewEnvTribute).cardChecked = false ∧
    (confirm_autorenew_handler autorenewEnvTribute).write = none ∧
    (confirm_autorenew_handler autorenewEnvNoCard).alert =
      some AutorenewAlert.requiresCard ∧
    (confirm_autorenew_handler autorenewEnvNoCard).write = none ∧
    (confirm_autorenew_handler autorenewEnvNoCard).committed = false := by
  have h1 := (C3_autorenew_confirm_guard autorenewEnvTribute autorenewSubTribute
    rfl rfl rfl).1 rfl
  have h2 := (C3_autorenew_confirm_guard autorenewEnvNoCard autorenewSubCard
    rfl rfl rfl).2 (by decide) rfl rfl
  rw [h1, h2]
  exact ⟨rfl, rfl, rfl, rfl, rfl, rfl⟩

/-- C8 counterexample: the bind payment's currency is the hardcoded literal
`"RUB"`, not the configured currency — here the configured currency symbol is
`"USD"` yet the created payment carries `"RUB"`. -/
theorem C8_bind_currency_counterexample :
    (payment_method_bind bindEnvUsd).created.map BindRequest.currency =
      some "RUB" ∧
    bindEnvUsd.defaultCurrencySymbol = "USD" ∧
    (payment_method_bind bindEnvUsd).created.map BindRequest.currency ≠
      some bindEnvUsd.defaultCurrencySymbol := by
  refine ⟨?_, rfl, ?_⟩ <;> decide

/-- C8 (amended): every pm:bind request with autopayments enabled creates a
gateway payment with amount 1.00 in the hardcoded currency RUB, capture
disabled, save-payment-method requested, marked bind-only, with metadata
carrying the caller's id and a bind marker and the configured receipt email;
a missing or falsy confirmation URL surfaces a gateway-error alert with no
link screen, and a nonempty URL is rendered as the link screen. -/
theorem C8_payment_bind (env : BindEnv)
    (hen : env.autopaymentsEnabled = true) :
    (payment_method_bind env).created = some
      { amount := 1, currency := "RUB", description := "Bind card",
        metadataUserId := toString env.callerId, metadataBindOnly := "1",
        receiptEmail := env.receiptEmail, savePaymentMethod := true,
        capture := false, bindOnly := true } ∧
    (env.gatewayConfirmationUrl = none →
        (payment_method_bind env).alert = some "error_payment_gateway" ∧
        (payment_method_bind env).linkScreenUrl = none) ∧
    (∀ u : Option String, env.gatewayConfirmationUrl = some u → u.getD "" = "" →
        (payment_method_bind env).alert = some "error_payment_gateway" ∧
        (payment_method_bind env).linkScreenUrl = none) ∧
    (∀ l : String, env.gatewayConfirmationUrl = some (some l) → l ≠ "" →
        (payment_method_bind env).alert = none ∧
        (payment_method_bind env).linkScreenUrl = some l) := by
  refine ⟨?_, ?_, ?_, ?_⟩
  · unfold payment_method_bind
    rcases hg : env.gatewayConfirmationUrl with _ | u
    · simp [hen, hg]
    · by_cases hu : u.getD "" = "" <;> simp [hen, hg, hu]
  · intro hg
    unfold payment_method_bind
    simp [hen, hg]
  · intro u hg hu
    unfold payment_method_bind
    simp [hen, hg, hu]
  · intro l hg hl
    unfold payment_method_bind
    simp [hen, hg, hl]

/-- Witness for the amended C8 at a concrete successful bind and a concrete
bind whose gateway answer lacks a confirmation URL. -/
theorem C8_payment_bind_witness :
    (payment_method_bind bindEnvUsd).linkScreenUrl =
      some "https://pay.example/confirm" ∧
    (payment_method_bind bindEnvNoUrl).alert = some "error_payment_gateway" ∧
    (payment_method_bind bindEnvNoUrl).linkScreenUrl = none ∧
    (payment_method_bind bindEnvUsd).created = some
      { amount := 1, currency := "RUB", description := "Bind card",
        metadataUserId := "42", metadataBindOnly := "1",
        receiptEmail := "receipts@example.com", savePaymentMethod := true,
        capture := false, bindOnly := true } := by
  have h1 := C8_payment_bind bindEnvUsd rfl
  have h2 := C8_payment_bind bindEnvNoUrl rfl
  have hlink := h1.2.2.2 "https://pay.example/confirm" rfl (by decide)
  have hmiss := h2.2.2.1 none rfl rfl
  refine ⟨hlink.2, hmiss.1, hmiss.2, ?_⟩
  rw [h1.1]
  decide

/-- Helper `_extract_last4` never produces the empty string: when it succeeds the
result has exactly four characters. -/
lemma extract_last4_ne_empty (t s : String) (h : extract_last4 t = some s) :
    s ≠ "" := by
  unfold extract_last4 at h
  split at h
  · next hlen =>
    rw [Option.some.injEq] at h
    subst h
    intro hc
    have hlen4 :
        ((t.toList.filter Char.isDigit).drop
          ((t.toList.filter Char.isDigit).length - 4)).length = 4 := by
      rw [List.length_drop]
      omega
    have : ((t.toList.filter Char.isDigit).drop
        ((t.toList.filter Char.isDigit).length - 4)) = [] := by
      have := congrArg String.toList hc
      simpa using this
    rw [this] at hlen4
    simp at hlen4
  · exact absurd h (by simp)

/-- C9 counterexample: for the wallet network `"yoomoney 12345 6"` with no
saved last-4, the code extracts the last four of ALL digit characters in
order (`3456`), while the claim's "last 4 digits of the longest digit run"
reading yields `2345`. -/
theorem C9_pm_title_counterexample :
    format_pm_title (some "yoomoney 12345 6") none = PmTitle.wallet "3456" ∧
    last4OfLongestRun "yoomoney 12345 6" = some "2345" ∧
    PmTitle.wallet "3456" ≠ PmTitle.wallet "2345" := by
  refine ⟨?_, ?_, ?_⟩ <;> decide

/-- C9 (amended): `_format_pm_title` coincides pointwise with the amended
rule — a wallet-spelling network (any of the three spellings, any case) uses
the saved last-4 when present and nonempty, else the last four of all digit
characters of the network string in order, else `****`; otherwise a known
last-4 gives the network+last-4 card title and anything else the generic
title, with localized defaults for a missing network name. -/
theorem C9_pm_title_formatting (network last4 : Option String) :
    format_pm_title network last4 = pmTitleAmendedSpec network last4 := by
  unfold format_pm_title pmTitleAmendedSpec
  by_cases hy : is_yoomoney_network network = true
  · simp only [hy, if_true]
    by_cases hl : last4.getD "" = ""
    · simp only [hl, if_true, ne_eq, not_true_eq_false, if_false]
      rcases hx : extract_last4 (network.getD "") with _ | s
      · simp [hx]
      · have hne := extract_last4_ne_empty _ _ hx
        simp [hx, hne]
    · simp only [hl, if_false, ne_eq, not_false_eq_true, if_true]
      rcases last4 with _ | s
      · simp at hl
      · simp only [Option.getD_some] at hl ⊢
        simp [hl]
  · simp [hy]
